import Mathlib

/-
Verification of the Douban Top 250 scraper (`src/scraper.py`) against its
natural-language specification.

The development shallowly embeds the scraper module:
* Python strings are Lean `String`s; the handful of `str` methods the module
  uses (`strip`, `lstrip`, `split`, `replace`, `in`, `join`) are modelled by
  executable char-list functions below.
* Python `int(...)` / `float(...)` are modelled over the character fragment
  the scraper actually feeds them (optional sign, ASCII decimal digits,
  optional fraction part); Python's wider literal syntax (underscores,
  exponents, non-ASCII digits) is outside the modelled fragment.
* The `Movie` dataclass is a Lean structure; its `__post_init__` fix-up of
  `directors`/`actors` is `movieCtor`.
* JSON documents are a `Json` inductive (Python `int` and `float` kept as
  distinct constructors, as `json.dumps`/`json.loads` round-trips them
  distinctly); `asdict` is `movieAsdict`, `Movie(**d)` is `movieFromJson`.
* BeautifulSoup queries over one `<li>` item fragment are abstracted by the
  `Li` structure: each field records the result of one query the parser
  performs; `_parse_movie` is `parseMovie`.
* The filesystem, the cache file and the network are an explicit `World`;
  `fetch_movies` is `fetchMovies`, returning its result, the final world and
  the trace of network/pacing events.
-/

/-! ## Python string primitives -/

/-- Characters stripped by Python `str.strip()` (whitespace; `\xA0`, the
non-breaking space, is Unicode whitespace and is stripped by Python too). -/
def isPySpace (c : Char) : Bool :=
  c = ' ' || c = '\t' || c = '\n' || c = '\r' || c = '\x0b' || c = '\x0c' || c = '\xA0'

/-- Python `str.strip()` on a character list. -/
def pyStripChars (l : List Char) : List Char :=
  ((l.dropWhile isPySpace).reverse.dropWhile isPySpace).reverse

/-- Python `str.strip()`. -/
def pyStrip (s : String) : String := String.mk (pyStripChars s.data)

/-- Python `str.lstrip("/")`: drop all leading slash characters. -/
def lstripSlash (s : String) : String := String.mk (s.data.dropWhile (fun c => c = '/'))

/-- Fuel-driven worker for `splitOnCL`; fuel is the length of the list, which
bounds the number of characters consumed. -/
def splitOnCLAux (pat : List Char) : Nat → List Char → List (List Char)
  | _, [] => [[]]
  | 0, l => [l]
  | fuel + 1, c :: rest =>
    if pat.isPrefixOf (c :: rest) then
      [] :: splitOnCLAux pat fuel (List.drop pat.length (c :: rest))
    else
      match splitOnCLAux pat fuel rest with
      | [] => [[c]]
      | h :: t => (c :: h) :: t

/-- Python `str.split(sep)` for a non-empty separator, on character lists:
left-to-right, non-overlapping occurrences. -/
def splitOnCL (pat l : List Char) : List (List Char) :=
  if pat.isEmpty then [l] else splitOnCLAux pat l.length l

/-- Python `s.split(sep)` (the scraper only splits on non-empty separators). -/
def pySplit (s sep : String) : List String :=
  (splitOnCL sep.data s.data).map String.mk

/-- Substring test on character lists (Python `pat in s`). -/
def containsCL (pat : List Char) : List Char → Bool
  | [] => pat.isEmpty
  | c :: rest => pat.isPrefixOf (c :: rest) || containsCL pat rest

/-- Python `pat in s`. -/
def pyContains (s pat : String) : Bool := containsCL pat.data s.data

/-- Python `sep.join(l)`. -/
def joinSep (sep : String) : List String → String
  | [] => ""
  | [x] => x
  | x :: y :: rest => x ++ sep ++ joinSep sep (y :: rest)

/-- Python `s.replace(old, new)` for non-empty `old`, which equals
`new.join(s.split(old))`. -/
def pyReplace (s old new : String) : String := joinSep new (pySplit s old)

/-- Numeric value of a list of ASCII decimal digits, most significant first. -/
def digitsVal (ds : List Char) : Nat :=
  ds.foldl (fun a c => 10 * a + (c.toNat - 48)) 0

/-- Unsigned decimal-literal parse: one or more ASCII digits. -/
def intDigits (l : List Char) : Option Int :=
  if !l.isEmpty && l.all Char.isDigit then some (digitsVal l : Int) else none

/-- Python `int(...)` after stripping: optional sign followed by one or more
ASCII decimal digits; `none` models a raised `ValueError`. -/
def pyIntChars : List Char → Option Int
  | [] => none
  | c :: rest =>
    if c = '+' then intDigits rest
    else if c = '-' then (intDigits rest).map Neg.neg
    else intDigits (c :: rest)

/-- Python `int(s)` on a string (strips whitespace first, as `int` does). -/
def pyInt (s : String) : Option Int := pyIntChars (pyStripChars s.data)

/-- The module's `_safe_int`: `None` stays `None`, a failed `int(...)` is
caught and becomes `None`. -/
def pySafeInt : Option String → Option Int
  | none => none
  | some v => pyInt v

/-- Fraction-literal part of Python `float(...)`: digits, optionally followed
by a point and digits; at least one digit overall. -/
def pyFloatCharsCore (l : List Char) : Option Rat :=
  let ip := l.takeWhile Char.isDigit
  let rest := l.dropWhile Char.isDigit
  match rest with
  | [] => if ip.isEmpty then none else some (digitsVal ip : Rat)
  | '.' :: fr =>
    if fr.all Char.isDigit && !(ip.isEmpty && fr.isEmpty) then
      some ((digitsVal ip : Rat) + (digitsVal fr : Rat) / ((10 : Rat) ^ fr.length))
    else none
  | _ => none

/-- Python `float(...)` with optional sign; the scraper only feeds it rating
strings such as `"9.7"`, so exponents/`inf`/`nan` are outside the fragment. -/
def pyFloatChars : List Char → Option Rat
  | '+' :: rest => pyFloatCharsCore rest
  | '-' :: rest => (pyFloatCharsCore rest).map Neg.neg
  | rest => pyFloatCharsCore rest

/-- Python `float(s)` (strips whitespace first, as `float` does). -/
def pyFloat (s : String) : Option Rat := pyFloatChars (pyStripChars s.data)

/-! ## The `Movie` record -/

/-- The `Movie` dataclass (`scraper.py` lines 25-49).  Python `float` ratings
are carried as exact rationals: the module never computes with them, it only
parses and round-trips them. -/
structure Movie where
  rank : Int
  title : String
  original_title : Option String
  year : Option Int
  country : Option String
  genres : List String
  rating : Rat
  votes : Int
  quote : Option String
  detail_url : String
  poster_url : Option String
  is_playable : Bool
  directors : List String
  actors : List String
deriving DecidableEq, Repr

/-- The dataclass constructor including `__post_init__`: `directors`/`actors`
may be passed as `None` (modelled `none`) and are then replaced by fresh empty
lists. -/
def movieCtor (rank : Int) (title : String) (original_title : Option String)
    (year : Option Int) (country : Option String) (genres : List String)
    (rating : Rat) (votes : Int) (quote : Option String) (detail_url : String)
    (poster_url : Option String) (is_playable : Bool)
    (directors actors : Option (List String)) : Movie :=
  { rank := rank, title := title, original_title := original_title, year := year,
    country := country, genres := genres, rating := rating, votes := votes,
    quote := quote, detail_url := detail_url, poster_url := poster_url,
    is_playable := is_playable,
    directors := directors.getD [], actors := actors.getD [] }

/-! ## JSON model and the cache store -/

/-- JSON documents as produced/consumed by `json.dumps`/`json.loads`.  Python
distinguishes `int` and `float` JSON numbers, so the model does too. -/
inductive Json where
  | null : Json
  | bool : Bool → Json
  | int : Int → Json
  | float : Rat → Json
  | str : String → Json
  | arr : List Json → Json
  | obj : List (String × Json) → Json

/-- Lookup of a key in a JSON object's field list (Python `dict` access with
string keys; `asdict` produces each key once). -/
def jGet (fields : List (String × Json)) (k : String) : Option Json :=
  (fields.find? (fun p => p.1 == k)).map (fun p => p.2)

def Json.asStr : Json → Option String
  | .str s => some s
  | _ => none

def Json.asInt : Json → Option Int
  | .int n => some n
  | _ => none

def Json.asRat : Json → Option Rat
  | .float q => some q
  | .int n => some (n : Rat)
  | _ => none

def Json.asBool : Json → Option Bool
  | .bool b => some b
  | _ => none

def Json.asOptStr : Json → Option (Option String)
  | .null => some none
  | .str s => some (some s)
  | _ => none

def Json.asOptInt : Json → Option (Option Int)
  | .null => some none
  | .int n => some (some n)
  | _ => none

def Json.asStrList : Json → Option (List String)
  | .arr xs => xs.mapM Json.asStr
  | _ => none

/-- Decoder for the `directors`/`actors` slots: JSON `null` models Python
`None` (handed to `__post_init__`), an array of strings models a list. -/
def Json.asOptStrList : Json → Option (Option (List String))
  | .null => some none
  | .arr xs => (xs.mapM Json.asStr).map some
  | _ => none

/-- Encoding of an optional string as `asdict` + `json.dumps` represent it:
`None` becomes JSON `null`. -/
def optStrJson : Option String → Json
  | none => Json.null
  | some s => Json.str s

/-- Encoding of an optional int: `None` becomes JSON `null`. -/
def optIntJson : Option Int → Json
  | none => Json.null
  | some n => Json.int n

/-- Field list of `dataclasses.asdict(movie)` under JSON encoding, in
dataclass declaration order. -/
def movieAsdictFields (m : Movie) : List (String × Json) :=
  [("rank", Json.int m.rank),
     ("title", Json.str m.title),
     ("original_title", optStrJson m.original_title),
     ("year", optIntJson m.year),
     ("country", optStrJson m.country),
     ("genres", Json.arr (m.genres.map Json.str)),
     ("rating", Json.float m.rating),
     ("votes", Json.int m.votes),
     ("quote", optStrJson m.quote),
     ("detail_url", Json.str m.detail_url),
     ("poster_url", optStrJson m.poster_url),
     ("is_playable", Json.bool m.is_playable),
     ("directors", Json.arr (m.directors.map Json.str)),
     ("actors", Json.arr (m.actors.map Json.str))]

/-- `dataclasses.asdict(movie)` followed by JSON encoding: one object with all
fourteen fields. -/
def movieAsdict (m : Movie) : Json := Json.obj (movieAsdictFields m)

/-- `Movie(**movie_dict)` on one decoded JSON object: read every dataclass
field by name, then construct through `movieCtor` (which performs the
`__post_init__` fix-up).  `none` models a raised `TypeError`/shape error. -/
def movieFromJson : Json → Option Movie
  | .obj fields => do
    let rank ← (jGet fields "rank").bind Json.asInt
    let title ← (jGet fields "title").bind Json.asStr
    let original_title ← (jGet fields "original_title").bind Json.asOptStr
    let year ← (jGet fields "year").bind Json.asOptInt
    let country ← (jGet fields "country").bind Json.asOptStr
    let genres ← (jGet fields "genres").bind Json.asStrList
    let rating ← (jGet fields "rating").bind Json.asRat
    let votes ← (jGet fields "votes").bind Json.asInt
    let quote ← (jGet fields "quote").bind Json.asOptStr
    let detail_url ← (jGet fields "detail_url").bind Json.asStr
    let poster_url ← (jGet fields "poster_url").bind Json.asOptStr
    let is_playable ← (jGet fields "is_playable").bind Json.asBool
    let directors ← (jGet fields "directors").bind Json.asOptStrList
    let actors ← (jGet fields "actors").bind Json.asOptStrList
    some (movieCtor rank title original_title year country genres rating votes
      quote detail_url poster_url is_playable directors actors)
  | _ => none

/-- `_write_cache`'s serialized document: `json.dumps([asdict(m) for m in movies])`. -/
def writeCacheJson (ms : List Movie) : Json := Json.arr (ms.map movieAsdict)

/-- Observable content of the cache file: `empty` is the zero-length file that
exists between `open("w")`'s truncation and the write; `doc` is a fully
written JSON document. -/
inductive CacheFileState where
  | empty : CacheFileState
  | doc : Json → CacheFileState

/-- `_load_from_cache`: `json.loads` of the file's text (raises on the empty
or non-array file, modelled `none`), then `Movie(**d)` per element. -/
def loadFromCache : CacheFileState → Option (List Movie)
  | .empty => none
  | .doc (.arr items) => items.mapM movieFromJson
  | .doc _ => none

/-- Observable file states during `_write_cache`, which is
`Path.write_text`, i.e. `open("w")` (truncate in place) followed by the write:
the previous content, then the truncated empty file, then the document. -/
def writeCacheStates (old : Option CacheFileState) (ms : List Movie) :
    List (Option CacheFileState) :=
  [old, some CacheFileState.empty, some (CacheFileState.doc (writeCacheJson ms))]

/-- A write is atomic when every observable state during it is either the
initial content or the final content. -/
def atomicWrite (states : List (Option CacheFileState))
    (init final : Option CacheFileState) : Prop :=
  ∀ s ∈ states, s = init ∨ s = final

/-- Keys of a JSON object, in order. -/
def jsonKeys : Json → List String
  | .obj fs => fs.map (fun p => p.1)
  | _ => []

/-- The fourteen `Movie` dataclass field names, in declaration order. -/
def movieFieldNames : List String :=
  ["rank", "title", "original_title", "year", "country", "genres", "rating",
   "votes", "quote", "detail_url", "poster_url", "is_playable", "directors",
   "actors"]

/-! ## Round-trip lemmas -/

theorem mapM_asStr_map_str (xs : List String) :
    (xs.map Json.str).mapM Json.asStr = some xs := by
  induction xs with
  | nil => rfl
  | cons x xs ih => rw [List.map_cons, List.mapM_cons, ih]; rfl

theorem mapM_loop_asStr (xs acc : List String) :
    List.mapM.loop Json.asStr (xs.map Json.str) acc = some (acc.reverse ++ xs) := by
  induction xs generalizing acc with
  | nil => simp [List.mapM.loop]
  | cons x t ih => simp [List.mapM.loop, Json.asStr, ih (x :: acc)]

theorem jGet_rank (m : Movie) :
    jGet (movieAsdictFields m) "rank" = some (Json.int m.rank) := rfl

theorem jGet_title (m : Movie) :
    jGet (movieAsdictFields m) "title" = some (Json.str m.title) := rfl

theorem jGet_original_title (m : Movie) :
    jGet (movieAsdictFields m) "original_title" = some (optStrJson m.original_title) := rfl

theorem jGet_year (m : Movie) :
    jGet (movieAsdictFields m) "year" = some (optIntJson m.year) := rfl

theorem jGet_country (m : Movie) :
    jGet (movieAsdictFields m) "country" = some (optStrJson m.country) := rfl

theorem jGet_genres (m : Movie) :
    jGet (movieAsdictFields m) "genres" = some (Json.arr (m.genres.map Json.str)) := rfl

theorem jGet_rating (m : Movie) :
    jGet (movieAsdictFields m) "rating" = some (Json.float m.rating) := rfl

theorem jGet_votes (m : Movie) :
    jGet (movieAsdictFields m) "votes" = some (Json.int m.votes) := rfl

theorem jGet_quote (m : Movie) :
    jGet (movieAsdictFields m) "quote" = some (optStrJson m.quote) := rfl

theorem jGet_detail_url (m : Movie) :
    jGet (movieAsdictFields m) "detail_url" = some (Json.str m.detail_url) := rfl

theorem jGet_poster_url (m : Movie) :
    jGet (movieAsdictFields m) "poster_url" = some (optStrJson m.poster_url) := rfl

theorem jGet_is_playable (m : Movie) :
    jGet (movieAsdictFields m) "is_playable" = some (Json.bool m.is_playable) := rfl

theorem jGet_directors (m : Movie) :
    jGet (movieAsdictFields m) "directors" = some (Json.arr (m.directors.map Json.str)) := rfl

theorem jGet_actors (m : Movie) :
    jGet (movieAsdictFields m) "actors" = some (Json.arr (m.actors.map Json.str)) := rfl

set_option maxHeartbeats 2000000 in
theorem movieFromJson_asdict (m : Movie) : movieFromJson (movieAsdict m) = some m := by
  simp only [movieAsdict, movieFromJson, jGet_rank, jGet_title, jGet_original_title,
    jGet_year, jGet_country, jGet_genres, jGet_rating, jGet_votes, jGet_quote,
    jGet_detail_url, jGet_poster_url, jGet_is_playable, jGet_directors, jGet_actors]
  obtain ⟨rank, title, original_title, year, country, genres, rating, votes,
    quote, detail_url, poster_url, is_playable, directors, actors⟩ := m
  cases original_title <;> cases year <;> cases country <;> cases quote <;>
    cases poster_url <;>
    simp [Json.asInt, Json.asStr, Json.asOptStr, Json.asOptInt, Json.asRat,
      Json.asBool, Json.asStrList, Json.asOptStrList, optStrJson, optIntJson,
      mapM_asStr_map_str, mapM_loop_asStr, movieCtor]

/-! ## Item fragments and `_parse_movie` -/

/--
Abstraction of one `<li>` item fragment as the results of the BeautifulSoup
queries `_parse_movie` performs on it:

* `em` — raw text of `li.find("em")`, `none` if absent;
* `titleSpans` — raw texts of `li.find_all("span", class_="title")`;
* `otherSpan` — raw text of `li.find("span", class_="other")`;
* `anchorHref` — `li.find("a")["href"]` when the first anchor has the
  attribute, `none` otherwise;
* `imgSrc` — `li.find("img")["src"]` likewise;
* `hasPlayable` — whether `li.find("span", class_="playable")` found a tag;
* `pTexts` — for `li.find("p")`: the stripped, non-empty text fragments of
  the paragraph in document order (`get_text(strip=True)` joins them with
  `""`, `get_text(separator="\n", strip=True)` joins them with `"\n"`);
  `none` if the paragraph is absent;
* `ratingNum` — raw text of `li.find("span", class_="rating_num")`;
* `bdSpans` — raw texts of `find_all("span")` under `li.find("div",
  class_="bd")`, `none` if that div is absent;
* `starSpans` — likewise for `li.find("div", class_="star")`;
* `inq` — raw text of `li.find("span", class_="inq")`.
-/
structure Li where
  em : Option String
  titleSpans : List String
  otherSpan : Option String
  anchorHref : Option String
  imgSrc : Option String
  hasPlayable : Bool
  pTexts : Option (List String)
  ratingNum : Option String
  bdSpans : Option (List String)
  starSpans : Option (List String)
  inq : Option String
deriving DecidableEq, Repr

/-- Rank extraction (`scraper.py` lines 123-125):
`int(rank_tag.get_text(strip=True)) if rank_tag else 0`.  `none` models the
`ValueError` raised by `int` on non-numeric text. -/
def parseRank : Option String → Option Int
  | none => some 0
  | some t => pyInt (pyStrip t)

/-- Primary title (lines 128-133): text of the first title span, `""` when
there is none. -/
def parseTitle : List String → String
  | [] => ""
  | t :: _ => pyStrip t

/-- Original title from a second title span (lines 135-138): strip a leading
slash and whitespace; keep only if non-empty. -/
def parseOriginalFromTitles : List String → Option String
  | _ :: t2 :: _ =>
    let second := pyStrip (lstripSlash (pyStrip t2))
    if second.isEmpty then none else some second
  | _ => none

/-- Original title including the "other titles" fallback (lines 140-146):
when no second title span produced one, use the `other` span: strip a leading
slash, and if the remaining text still contains a slash take the first
slash-separated alternate, trimmed. -/
def parseOriginalTitle (titleSpans : List String) (otherSpan : Option String) :
    Option String :=
  match parseOriginalFromTitles titleSpans with
  | some s => some s
  | none =>
    match otherSpan with
    | none => none
    | some o =>
      let other_text := pyStrip (lstripSlash (pyStrip o))
      if other_text.isEmpty then none
      else if pyContains other_text "/" then
        some (pyStrip ((pySplit other_text "/").headD ""))
      else some other_text

/-- Director extraction (lines 172-182): text after the first `"导演:"`
marker, truncated at `"主演:"` if present, split on `/`, trimmed, non-empty
entries, first three. -/
def parseDirectors (info_text : String) : List String :=
  if pyContains info_text "导演:" then
    let director_part :=
      if pyContains info_text "主演:" then (pySplit info_text "主演:").headD ""
      else info_text
    if pyContains director_part "导演:" then
      match pySplit director_part "导演:" with
      | _ :: p1 :: _ =>
        let director_text := pyStrip p1
        (((pySplit director_text "/").map pyStrip).filter (fun d => !d.isEmpty)).take 3
      | _ => []
    else []
  else []

/-- Actor extraction (lines 184-193): text after the first `"主演:"` marker,
truncated at a literal `"<br"` if present, split on `/`, trimmed, non-empty
entries, first five. -/
def parseActors (info_text : String) : List String :=
  if pyContains info_text "主演:" then
    match pySplit info_text "主演:" with
    | _ :: p1 :: _ =>
      let actors_text :=
        if pyContains p1 "<br" then (pySplit p1 "<br").headD "" else p1
      (((pySplit actors_text "/").map pyStrip).filter (fun a => !a.isEmpty)).take 5
    | _ => []
  else []

/-- Non-empty stripped lines of the info paragraph (lines 204-205): the
`"\n"`-joined text fragments, re-split on newlines, stripped, empties
dropped. -/
def infoLinesOf (texts : List String) : List String :=
  ((pySplit (joinSep "\n" texts) "\n").map pyStrip).filter (fun l => !l.isEmpty)

/-- Year / country / genres extraction (lines 198-223), exactly as coded:
guarded on the paragraph's presence, last non-empty line, `\xa0` and
`&nbsp;` replaced by spaces, split on `/` into stripped non-empty parts;
part 0 through `_safe_int` to the year, part 1 (if present) the country,
parts 2 and later the genres. -/
def metaFromInfo : Option (List String) → Option Int × Option String × List String
  | none => (none, none, [])
  | some texts =>
    match (infoLinesOf texts).getLast? with
    | none => (none, none, [])
    | some metadata_line =>
      let m1 := pyReplace (pyReplace metadata_line "\xA0" " ") "&nbsp;" " "
      let parts := ((pySplit m1 "/").map pyStrip).filter (fun p => !p.isEmpty)
      match parts with
      | [] => (none, none, [])
      | p0 :: rest =>
        (pySafeInt (some p0),
         match rest with | [] => none | c :: _ => some c,
         match rest with | [] => [] | _ :: g => g)

/-- Rating extraction (lines 226-233): `float` of the rating span's text,
`0.0` when the span is absent or parsing fails. -/
def parseRating : Option String → Rat
  | none => 0
  | some t => (pyFloat (pyStrip t)).getD 0

/-- Vote-count digit concatenation (`_extract_vote_count`, lines 300-302):
`int` of the concatenated digit characters, `0` if there are none.  (Python's
`str.isdigit` also accepts non-ASCII digit characters, some of which `int`
then rejects; the model covers the ASCII decimal digits the site's markup
uses.) -/
def extractVoteCount (value : String) : Int :=
  let digits := value.data.filter Char.isDigit
  if digits.isEmpty then 0 else (digitsVal digits : Int)

/-- First span text under `div.bd` containing the vote marker (lines
240-245). -/
def findVoteSpan : List String → Option String
  | [] => none
  | t :: rest =>
    let st := pyStrip t
    if pyContains st "人评价" || pyContains st "评价" then some st
    else findVoteSpan rest

/-- Vote extraction (lines 236-254): search the `bd` div's spans for one whose
text contains the vote marker; if the result is still `0`, fall back to the
last span of the `star` div. -/
def parseVotes (bdSpans starSpans : Option (List String)) : Int :=
  let votes1 : Int :=
    match bdSpans with
    | none => 0
    | some spans =>
      match findVoteSpan spans with
      | some t => extractVoteCount t
      | none => 0
  if votes1 = 0 then
    match starSpans with
    | none => votes1
    | some spans =>
      match spans.getLast? with
      | none => votes1
      | some t => extractVoteCount (pyStrip t)
  else votes1

/-- `_parse_movie` (lines 121-275).  The rank conversion is the only
statement outside a `try` block that can raise in the modelled fragment, so
the result is `none` exactly when `int` fails on the `em` text; every other
field extraction is total. -/
def parseMovie (li : Li) : Option Movie :=
  match parseRank li.em with
  | none => none
  | some rank =>
    some
      { rank := rank,
        title := parseTitle li.titleSpans,
        original_title := parseOriginalTitle li.titleSpans li.otherSpan,
        year := (metaFromInfo li.pTexts).1,
        country := (metaFromInfo li.pTexts).2.1,
        genres := (metaFromInfo li.pTexts).2.2,
        rating := parseRating li.ratingNum,
        votes := parseVotes li.bdSpans li.starSpans,
        quote := li.inq.map pyStrip,
        detail_url := li.anchorHref.getD "",
        poster_url := li.imgSrc,
        is_playable := li.hasPlayable,
        directors := match li.pTexts with
          | none => []
          | some ts => parseDirectors (String.join ts),
        actors := match li.pTexts with
          | none => []
          | some ts => parseActors (String.join ts) }

/-! ## Orchestrator model -/

/-- Outcome of requesting one listing page: an HTTP error status
(`raise_for_status` raises), markup without the `ol.grid_view` container
(`ValueError` raised at line 110), or the container's item fragments. -/
inductive PageOutcome where
  | httpError : PageOutcome
  | noContainer : PageOutcome
  | ok : List Li → PageOutcome
deriving Repr

/-- Whether a page outcome delivers a container. -/
def PageOutcome.isOk : PageOutcome → Bool
  | .ok _ => true
  | _ => false

/-- Observable effects of one fetch pass: a network request for an offset, or
one `_respectful_delay()` call (the pacing controller). -/
inductive Event where
  | fetchPage : Nat → Event
  | delay : Event
deriving DecidableEq, Repr

/-- Exceptions that escape `fetch_movies`. -/
inductive FetchErr where
  | httpError : FetchErr
  | noContainer : FetchErr
  | cacheError : FetchErr
deriving DecidableEq, Repr

/-- Scraper configuration captured by `__init__` (lines 55-69). -/
structure Scraper where
  cacheDir : List String
  cacheFilename : String
  useCache : Bool
  minDelay : Rat
  maxDelay : Rat

/-- The world the scraper acts on: which directories exist, the cache file's
content (`none` = file does not exist), and what the network returns for each
page offset. -/
structure World where
  dirs : List (List String)
  cacheFile : Option CacheFileState
  pages : Nat → PageOutcome

/-- Python `range(start, stop, step)` for a positive step, by iteration
count. -/
def pythonRangeAux (start step : Nat) : Nat → List Nat
  | 0 => []
  | n + 1 => start :: pythonRangeAux (start + step) step n

/-- Python `range(start, stop, step)` for `step > 0`. -/
def pythonRange (start stop step : Nat) : List Nat :=
  pythonRangeAux start step ((stop - start + step - 1) / step)

/-- All ancestors of a path created by `mkdir(parents=True)`, the path
itself last. -/
def pathPrefixes (p : List String) : List (List String) :=
  (List.range p.length).map (fun i => p.take (i + 1))

/-- `DoubanTop250Scraper.__init__` (lines 55-69): records the configuration
and unconditionally runs `self.cache_dir.mkdir(parents=True, exist_ok=True)`
— the one filesystem side effect of construction. -/
def scraperInit (cacheDir : List String) (cacheFilename : String)
    (useCache : Bool) (minDelay maxDelay : Rat) (w : World) : Scraper × World :=
  ({ cacheDir := cacheDir, cacheFilename := cacheFilename, useCache := useCache,
     minDelay := minDelay, maxDelay := maxDelay },
   { w with dirs := pathPrefixes cacheDir ++ w.dirs })

/-- The cache-hit test of `fetch_movies` (line 86):
`self.use_cache and not force_refresh and self.cache_path.exists()`. -/
def cacheHit (sc : Scraper) (forceRefresh : Bool) (w : World) : Bool :=
  sc.useCache && !forceRefresh && w.cacheFile.isSome

/-- `_fetch_page` (lines 101-119): raise on HTTP error, raise the distinct
container error when `ol.grid_view` is absent, otherwise parse every item
fragment, skipping the ones whose parse raises. -/
def fetchPage (w : World) (start : Nat) : Except FetchErr (List Movie) :=
  match w.pages start with
  | .httpError => .error .httpError
  | .noContainer => .error .noContainer
  | .ok lis => .ok (lis.filterMap parseMovie)

/-- The pagination loop of `fetch_movies` (lines 89-93): for each offset,
fetch the page (aborting the pass on a page error), append its movies, then
call `_respectful_delay()`.  Returns the result together with the trace of
network and pacing events. -/
def fetchLoop (w : World) : List Nat → Except FetchErr (List Movie) × List Event
  | [] => (.ok [], [])
  | s :: rest =>
    match fetchPage w s with
    | .error e => (.error e, [.fetchPage s])
    | .ok pm =>
      match fetchLoop w rest with
      | (.ok ms, evs) => (.ok (pm ++ ms), .fetchPage s :: .delay :: evs)
      | (.error e, evs) => (.error e, .fetchPage s :: .delay :: evs)

/-- `fetch_movies` (lines 84-98): on a cache hit, load and return the cache
(no network events); otherwise run the pagination loop over
`range(0, 250, 25)` and, when caching is enabled and the loop succeeded,
overwrite the cache file with the serialized result. -/
def fetchMovies (sc : Scraper) (forceRefresh : Bool) (w : World) :
    Except FetchErr (List Movie) × World × List Event :=
  if cacheHit sc forceRefresh w then
    match w.cacheFile with
    | some st =>
      match loadFromCache st with
      | some ms => (.ok ms, w, [])
      | none => (.error .cacheError, w, [])
    | none => (.error .cacheError, w, [])
  else
    match fetchLoop w (pythonRange 0 250 25) with
    | (.error e, evs) => (.error e, w, evs)
    | (.ok ms, evs) =>
      if sc.useCache then
        (.ok ms, { w with cacheFile := some (.doc (writeCacheJson ms)) }, evs)
      else (.ok ms, w, evs)

/-! ## Concrete fixtures -/

/-- An item fragment whose info paragraph carries the metadata line
`"1994 / 美国 / 剧情 犯罪"` (claim C7's example). -/
def liMeta : Li :=
  { em := some "1",
    titleSpans := ["肖申克的救赎", "\xA0/\xA0The Shawshank Redemption"],
    otherSpan := some " / 月黑高飞(港)  /  刺激1995(台)",
    anchorHref := some "https://movie.example/1292052/",
    imgSrc := some "https://img.example/p480747492.jpg",
    hasPlayable := true,
    pTexts := some ["导演: 弗兰克·德拉邦特 Frank Darabont   主演: 蒂姆·罗宾斯 Tim Robbins /...",
                    "1994 / 美国 / 剧情 犯罪"],
    ratingNum := some "9.7",
    bdSpans := some ["9.7", "2838806人评价"],
    starSpans := none,
    inq := some "希望让人自由。" }

/-- An item fragment whose `bd` div holds a ratings span with text
`"1234567人评价"` (claim C8's example). -/
def liVotes : Li :=
  { em := some "2",
    titleSpans := ["霸王别姬"],
    otherSpan := none,
    anchorHref := some "https://movie.example/1291546/",
    imgSrc := none,
    hasPlayable := false,
    pTexts := some ["导演: 陈凯歌 主演: 张国荣", "1993 / 中国大陆 中国香港 / 剧情 爱情 同性"],
    ratingNum := some "9.6",
    bdSpans := some ["9.6", "1234567人评价"],
    starSpans := none,
    inq := none }

/-- An item fragment with a single title span and an "other titles" span
holding two slash-separated alternates (claim C9's example). -/
def liOther : Li :=
  { em := some "3",
    titleSpans := ["寂静人生"],
    otherSpan := some "/ 美国异闻录 / 美国志异",
    anchorHref := none,
    imgSrc := none,
    hasPlayable := false,
    pTexts := none,
    ratingNum := none,
    bdSpans := none,
    starSpans := none,
    inq := none }

/-- An item fragment whose `em` element holds non-numeric text (claim C5). -/
def liBadRank : Li :=
  { em := some "N/A",
    titleSpans := ["无名影片"],
    otherSpan := none,
    anchorHref := none,
    imgSrc := none,
    hasPlayable := false,
    pTexts := none,
    ratingNum := none,
    bdSpans := none,
    starSpans := none,
    inq := none }

/-- A configuration with caching disabled. -/
def scNoCache : Scraper :=
  { cacheDir := ["data"], cacheFilename := "douban_top250.json",
    useCache := false, minDelay := 1, maxDelay := 5 / 2 }

/-- A configuration with caching enabled (the defaults of `__init__`). -/
def scCache : Scraper :=
  { cacheDir := ["data"], cacheFilename := "douban_top250.json",
    useCache := true, minDelay := 1, maxDelay := 5 / 2 }

/-- A world with no cache file where every page fetch succeeds with an empty
container. -/
def wAllOk : World :=
  { dirs := [], cacheFile := none, pages := fun _ => .ok [] }

/-- A world holding a valid, empty cached document. -/
def wCached : World :=
  { dirs := [], cacheFile := some (.doc (Json.arr [])), pages := fun _ => .ok [] }

/-- A world with no cache file where every page's markup lacks the
`grid_view` container. -/
def wNoContainer : World :=
  { dirs := [], cacheFile := none, pages := fun _ => .noContainer }

/-! ## Spec-side formulations

Definitions in this section follow the specification's wording for the
properties under scrutiny; the theorems below compare them with the
code-derived definitions above. -/

/-- The specification's metadata rule applied to one line: normalize
non-breaking-space artifacts, split on slash into trimmed (non-empty)
segments; segment 0 is the year (absent if not numeric), segment 1 (if
present) the country, segments 2+ verbatim the genres. -/
def specMetaLine (line : String) : Option Int × Option String × List String :=
  let normalized := pyReplace (pyReplace line "\xA0" " ") "&nbsp;" " "
  let segs := ((pySplit normalized "/").map pyStrip).filter (fun p => !p.isEmpty)
  ((segs.head?).bind pyInt, segs[1]?, segs.drop 2)

/-- The specification's year/country/genres extraction: apply the metadata
rule to the last non-empty line of the info block, nothing when the block is
absent or has no non-empty line. -/
def specMetaOfInfo : Option (List String) → Option Int × Option String × List String
  | none => (none, none, [])
  | some texts =>
    match (infoLinesOf texts).getLast? with
    | none => (none, none, [])
    | some line => specMetaLine line

/-- The specification's "other titles" fallback: strip a leading slash; when
the remaining text contains further slash-separated alternates keep only the
first, trimmed; absent when the span is absent or its text is empty. -/
def specOtherFallback : Option String → Option String
  | none => none
  | some o =>
    let t := pyStrip (lstripSlash (pyStrip o))
    if t.isEmpty then none
    else if pyContains t "/" then some (pyStrip ((pySplit t "/").headD ""))
    else some t

/-! ## Helper lemmas -/

theorem metaFromInfo_eq_spec (p : Option (List String)) :
    metaFromInfo p = specMetaOfInfo p := by
  cases p with
  | none => rfl
  | some texts =>
    simp only [metaFromInfo, specMetaOfInfo]
    cases hlast : (infoLinesOf texts).getLast? with
    | none => rfl
    | some line =>
      simp only [specMetaLine]
      cases hp : ((pySplit (pyReplace (pyReplace line "\xA0" " ") "&nbsp;" " ") "/").map
          pyStrip).filter (fun p => !p.isEmpty) with
      | nil => rfl
      | cons p0 rest => cases rest <;> simp [pySafeInt]

theorem dropWhile_eq_self_all (p : Char → Bool) (l : List Char)
    (h : ∀ c ∈ l, p c = false) : l.dropWhile p = l := by
  cases l with
  | nil => rfl
  | cons c t => simp [List.dropWhile_cons, h c (by simp)]

theorem pyStripChars_eq_self (l : List Char) (h : ∀ c ∈ l, isPySpace c = false) :
    pyStripChars l = l := by
  unfold pyStripChars
  rw [dropWhile_eq_self_all _ _ h, dropWhile_eq_self_all, List.reverse_reverse]
  intro c hc
  exact h c (by simpa using hc)

theorem pySpace_not_digit (c : Char) (hs : isPySpace c = true) : c.isDigit = false := by
  simp only [isPySpace, Bool.or_eq_true, decide_eq_true_eq] at hs
  rcases hs with ((((((h | h) | h) | h) | h) | h) | h) <;> subst h <;> decide

theorem pyIntChars_digits (ds : List Char) (hne : ds ≠ [])
    (h : ∀ c ∈ ds, c.isDigit = true) :
    pyIntChars ds = some (digitsVal ds : Int) := by
  cases ds with
  | nil => exact absurd rfl hne
  | cons c t =>
    have hc := h c (by simp)
    have hplus : c ≠ '+' := by rintro rfl; simp at hc
    have hminus : c ≠ '-' := by rintro rfl; simp at hc
    have hall : (c :: t).all Char.isDigit = true := List.all_eq_true.mpr h
    simp [pyIntChars, hplus, hminus, intDigits, hall]

theorem pyInt_digit_string (ds : List Char) (hne : ds ≠ [])
    (h : ∀ c ∈ ds, c.isDigit = true) :
    pyInt (String.mk ds) = some (digitsVal ds : Int) := by
  have hn : ∀ c ∈ ds, isPySpace c = false := by
    intro c hc
    cases hsp : isPySpace c with
    | false => rfl
    | true =>
      have hnd := pySpace_not_digit c hsp
      rw [h c hc] at hnd
      cases hnd
  unfold pyInt
  rw [show (String.mk ds).data = ds from rfl, pyStripChars_eq_self ds hn]
  exact pyIntChars_digits ds hne h

theorem fetchLoop_events_ok (w : World) (starts : List Nat)
    (hok : ∀ s ∈ starts, (w.pages s).isOk = true) :
    (fetchLoop w starts).2 =
      starts.flatMap (fun s => [Event.fetchPage s, Event.delay]) := by
  induction starts with
  | nil => rfl
  | cons s rest ih =>
    obtain ⟨lis, hlis⟩ : ∃ lis, w.pages s = .ok lis := by
      have hh := hok s (by simp)
      cases hq : w.pages s <;> simp [PageOutcome.isOk, hq] at hh ⊢
    have ihe := ih (fun t ht => hok t (List.mem_cons_of_mem _ ht))
    simp only [fetchLoop, fetchPage, hlis]
    rcases hr : fetchLoop w rest with ⟨r, evs⟩
    rw [hr] at ihe
    cases r <;> simp [List.flatMap_cons] <;> exact ihe

theorem fetchLoop_err_at (w : World) (pre : List Nat) (s : Nat) (post : List Nat)
    (hpre : ∀ t ∈ pre, (w.pages t).isOk = true)
    (hs : w.pages s = .noContainer) :
    (fetchLoop w (pre ++ s :: post)).1 = .error .noContainer := by
  induction pre with
  | nil => simp [fetchLoop, fetchPage, hs]
  | cons t ts ih =>
    obtain ⟨lis, hlis⟩ : ∃ lis, w.pages t = .ok lis := by
      have hh := hpre t (by simp)
      cases hq : w.pages t <;> simp [PageOutcome.isOk, hq] at hh ⊢
    have ihr := ih (fun u hu => hpre u (List.mem_cons_of_mem _ hu))
    simp only [List.cons_append, fetchLoop, fetchPage, hlis]
    rcases hr : fetchLoop w (ts ++ s :: post) with ⟨r, evs⟩
    rw [hr] at ihr
    cases r <;> simp_all

/-! ## Claim C10 -/

/-- C10: constructing a `DoubanTop250Scraper` immediately creates the cache
directory (with its parents) on disk, for every configuration — including
`use_cache = False` — and touches nothing else in the world. -/
theorem C10_init_creates_cache_dir (cd : List String) (fn : String) (uc : Bool)
    (mn mx : Rat) (w : World) :
    (scraperInit cd fn uc mn mx w).2.dirs = pathPrefixes cd ++ w.dirs ∧
    (scraperInit cd fn false mn mx w).2.dirs = pathPrefixes cd ++ w.dirs ∧
    (scraperInit cd fn uc mn mx w).2.cacheFile = w.cacheFile ∧
    (scraperInit cd fn uc mn mx w).2.pages = w.pages :=
  ⟨rfl, rfl, rfl, rfl⟩

/-! ## Claim C2 -/

theorem mapM_loop_fromJson (ms acc : List Movie) :
    List.mapM.loop movieFromJson (ms.map movieAsdict) acc = some (acc.reverse ++ ms) := by
  induction ms generalizing acc with
  | nil => simp [List.mapM.loop]
  | cons m t ih => simp [List.mapM.loop, movieFromJson_asdict, ih (m :: acc)]

/-- C2: writing any sequence of `Movie` records with the cache store and
reading the cache back yields the original sequence, field for field —
absent optionals and empty or populated credit lists included. -/
theorem C2_cache_roundtrip (ms : List Movie) :
    loadFromCache (CacheFileState.doc (writeCacheJson ms)) = some ms := by
  have h := mapM_loop_fromJson ms []
  simpa [loadFromCache, writeCacheJson, List.mapM] using h

/-! ## Claim C6 -/

/-- C6 counterexample: the cache write is not atomic.  Writing an (empty)
record list over a non-existent cache file exposes the truncated empty file
as an observable intermediate state, which is neither the initial nor the
final content. -/
theorem C6_write_not_atomic :
    ¬ atomicWrite (writeCacheStates none []) none
        (some (CacheFileState.doc (writeCacheJson []))) := by
  intro h
  have hmem := h (some CacheFileState.empty) (by simp [writeCacheStates])
  rcases hmem with h1 | h1 <;> simp [writeCacheJson] at h1

/-- C6 (amended): the cache write serializes every record's full field set
(all fourteen dataclass fields, absent optionals as JSON nulls) to a JSON
array, and writes it in place by truncating the configured path and then
writing — the truncated empty file is an observable intermediate state. -/
theorem C6_write_behavior (old : Option CacheFileState) (ms : List Movie) :
    writeCacheStates old ms =
      [old, some CacheFileState.empty,
       some (CacheFileState.doc (Json.arr (ms.map movieAsdict)))] ∧
    ms.map (fun m => jsonKeys (movieAsdict m)) = ms.map (fun _ => movieFieldNames) ∧
    some CacheFileState.empty ∈ writeCacheStates old ms := by
  refine ⟨rfl, ?_, by simp [writeCacheStates]⟩
  induction ms with
  | nil => rfl
  | cons m t ih => simp only [List.map_cons, ih]; rfl

/-! ## Claim C1 -/

/-- C1 counterexample: in a no-cache-hit fetch pass over a network where
every page succeeds, the pacing controller runs 10 times — once after every
page, the final page included — not the 9 the claim states. -/
theorem C1_ten_delays_counterexample :
    (fetchMovies scNoCache false wAllOk).2.2.count Event.delay = 10 ∧
    (fetchMovies scNoCache false wAllOk).2.2.count Event.delay ≠ 9 := by
  decide

/-- C1 (amended): in a fetch pass with no cache hit in which every page
fetch succeeds, the orchestrator fetches exactly the ten offsets 0, 25, …,
225 in increasing order and invokes the pacing controller once after every
fetch — including the final one — for 10 total delay invocations. -/
theorem C1_fetch_offsets_and_delays (sc : Scraper) (fr : Bool) (w : World)
    (hc : cacheHit sc fr w = false)
    (hok : ∀ s ∈ pythonRange 0 250 25, (w.pages s).isOk = true) :
    (fetchMovies sc fr w).2.2 =
      (pythonRange 0 250 25).flatMap (fun s => [Event.fetchPage s, Event.delay]) ∧
    pythonRange 0 250 25 = [0, 25, 50, 75, 100, 125, 150, 175, 200, 225] ∧
    ((pythonRange 0 250 25).flatMap
        (fun s => [Event.fetchPage s, Event.delay])).count Event.delay = 10 := by
  refine ⟨?_, by decide, by decide⟩
  have hev := fetchLoop_events_ok w (pythonRange 0 250 25) hok
  simp only [fetchMovies, hc]
  rcases hr : fetchLoop w (pythonRange 0 250 25) with ⟨r, evs⟩
  rw [hr] at hev
  cases r with
  | error e => simpa using hev
  | ok ms => cases hu : sc.useCache <;> simpa [hu] using hev

/-- C1 witness: the amended pass shape at a concrete configuration and
network. -/
theorem C1_fetch_offsets_and_delays_witness :
    (fetchMovies scNoCache false wAllOk).2.2 =
      (pythonRange 0 250 25).flatMap (fun s => [Event.fetchPage s, Event.delay]) ∧
    pythonRange 0 250 25 = [0, 25, 50, 75, 100, 125, 150, 175, 200, 225] ∧
    ((pythonRange 0 250 25).flatMap
        (fun s => [Event.fetchPage s, Event.delay])).count Event.delay = 10 :=
  C1_fetch_offsets_and_delays scNoCache false wAllOk (by decide) (by decide)

/-! ## Claim C3 -/

/-- C3: with caching enabled, `force_refresh` false and a cache file present,
`fetch_movies` answers from the cache with zero network (and pacing) events
and leaves the world untouched, so a second identical call performs no
network request either and returns the same result. -/
theorem C3_cache_hit_idempotent (sc : Scraper) (w : World) (st : CacheFileState)
    (hu : sc.useCache = true) (hc : w.cacheFile = some st) :
    (fetchMovies sc false w).2.2 = [] ∧
    (fetchMovies sc false w).2.1 = w ∧
    (∀ ms, loadFromCache st = some ms → (fetchMovies sc false w).1 = .ok ms) ∧
    (fetchMovies sc false ((fetchMovies sc false w).2.1)).1 = (fetchMovies sc false w).1 ∧
    (fetchMovies sc false ((fetchMovies sc false w).2.1)).2.2 = [] := by
  have hhit : cacheHit sc false w = true := by simp [cacheHit, hu, hc]
  cases hl : loadFromCache st with
  | none =>
    refine ⟨?_, ?_, ?_, ?_, ?_⟩ <;>
      simp [fetchMovies, hhit, hc, hl]
  | some ms0 =>
    refine ⟨?_, ?_, ?_, ?_, ?_⟩ <;>
      simp [fetchMovies, hhit, hc, hl]

/-- C3 witness: the cache-hit behavior at a concrete scraper and a world
holding a valid empty cached document. -/
theorem C3_cache_hit_idempotent_witness :
    (fetchMovies scCache false wCached).2.2 = [] ∧
    (fetchMovies scCache false wCached).2.1 = wCached ∧
    (∀ ms, loadFromCache (CacheFileState.doc (Json.arr [])) = some ms →
      (fetchMovies scCache false wCached).1 = .ok ms) ∧
    (fetchMovies scCache false ((fetchMovies scCache false wCached).2.1)).1 =
      (fetchMovies scCache false wCached).1 ∧
    (fetchMovies scCache false ((fetchMovies scCache false wCached).2.1)).2.2 = [] :=
  C3_cache_hit_idempotent scCache wCached (CacheFileState.doc (Json.arr [])) rfl rfl

/-! ## Claim C4 -/

/-- C4: when a fetched page's markup lacks the repeated-list container —
every earlier offset having delivered a container — the distinct
container-not-found error propagates out of the whole fetch pass as the
pass's result, and the cache file is left exactly as it was (no cache write,
no partial result). -/
theorem C4_container_error_aborts (sc : Scraper) (fr : Bool) (w : World)
    (pre : List Nat) (s : Nat) (post : List Nat)
    (hc : cacheHit sc fr w = false)
    (hsplit : pythonRange 0 250 25 = pre ++ s :: post)
    (hpre : ∀ t ∈ pre, (w.pages t).isOk = true)
    (hs : w.pages s = .noContainer) :
    (fetchMovies sc fr w).1 = .error .noContainer ∧
    (fetchMovies sc fr w).2.1.cacheFile = w.cacheFile := by
  have herr := fetchLoop_err_at w pre s post hpre hs
  rw [← hsplit] at herr
  simp only [fetchMovies, hc]
  rcases hr : fetchLoop w (pythonRange 0 250 25) with ⟨r, evs⟩
  rw [hr] at herr
  cases r with
  | error e =>
    simp only at herr
    rw [herr]
    exact ⟨rfl, rfl⟩
  | ok ms => simp at herr

/-- C4 witness: a network whose very first page has no container aborts the
concrete pass with the container error and leaves the absent cache absent. -/
theorem C4_container_error_aborts_witness :
    (fetchMovies scCache false wNoContainer).1 = .error .noContainer ∧
    (fetchMovies scCache false wNoContainer).2.1.cacheFile = wNoContainer.cacheFile :=
  C4_container_error_aborts scCache false wNoContainer [] 0
    [25, 50, 75, 100, 125, 150, 175, 200, 225]
    (by decide) (by decide) (by simp) rfl

/-! ## Claim C5 -/

/-- C5 counterexample: on an item whose emphasis element reads `"N/A"` (a
non-numeric text), `_parse_movie` does not produce a movie with rank 0 — the
`int` conversion raises, extraction of the item is aborted and the item is
skipped. -/
theorem C5_nonnumeric_rank_aborts :
    liBadRank.em = some "N/A" ∧ parseMovie liBadRank = none ∧
    ¬∃ m, parseMovie liBadRank = some m ∧ m.rank = 0 := by
  refine ⟨rfl, by decide, ?_⟩
  rintro ⟨m, hm, -⟩
  rw [show parseMovie liBadRank = none by decide] at hm
  cases hm

/-- C5 (amended): rank is the integer value of the first emphasis-marked
element's text, and 0 when that element is absent; when the element is
present but its text is non-numeric, the conversion raises and the whole
item's extraction is aborted (the page loop then skips the item). -/
theorem C5_rank_rule (li : Li) :
    ((∃ t, li.em = some t ∧ pyInt (pyStrip t) = none) → parseMovie li = none) ∧
    (∀ m, parseMovie li = some m → some m.rank = parseRank li.em) := by
  constructor
  · rintro ⟨t, ht, hbad⟩
    simp [parseMovie, parseRank, ht, hbad]
  · intro m hm
    cases hr : parseRank li.em with
    | none => simp [parseMovie, hr] at hm
    | some r =>
      simp only [parseMovie, hr] at hm
      injection hm with h
      rw [← h]

/-- C5 witness: the amended rule applied to the concrete non-numeric item. -/
theorem C5_rank_rule_witness : parseMovie liBadRank = none :=
  (C5_rank_rule liBadRank).1 ⟨"N/A", rfl, by decide⟩

/-! ## Claim C7 -/

/-- The movie `_parse_movie` extracts from `liMeta`. -/
def mMeta : Movie :=
  { rank := 1,
    title := "肖申克的救赎",
    original_title := some "The Shawshank Redemption",
    year := some 1994,
    country := some "美国",
    genres := ["剧情 犯罪"],
    rating := parseRating (some "9.7"),
    votes := 2838806,
    quote := some "希望让人自由。",
    detail_url := "https://movie.example/1292052/",
    poster_url := some "https://img.example/p480747492.jpg",
    is_playable := true,
    directors := ["弗兰克·德拉邦特 Frank Darabont"],
    actors := ["蒂姆·罗宾斯 Tim Robbins", "...1994", "美国", "剧情 犯罪"] }

/-- C7: the extracted year, country and genres of every parsed item are
exactly the specification's metadata rule — last non-empty info line,
non-breaking spaces normalized, slash-split trimmed segments mapped to
year / country / genres — and on the line `"1994 / 美国 / 剧情 犯罪"` they are
1994, `"美国"` and the single token `"剧情 犯罪"`. -/
theorem C7_metadata_extraction :
    (∀ li m, parseMovie li = some m →
      m.year = (specMetaOfInfo li.pTexts).1 ∧
      m.country = (specMetaOfInfo li.pTexts).2.1 ∧
      m.genres = (specMetaOfInfo li.pTexts).2.2) ∧
    (parseMovie liMeta).map (fun m => (m.year, m.country, m.genres)) =
      some (some 1994, some "美国", ["剧情 犯罪"]) := by
  constructor
  · intro li m hm
    cases hr : parseRank li.em with
    | none => simp [parseMovie, hr] at hm
    | some r =>
      simp only [parseMovie, hr] at hm
      injection hm with h
      subst h
      exact ⟨(congrArg Prod.fst (metaFromInfo_eq_spec li.pTexts)),
        (congrArg (fun p => p.2.1) (metaFromInfo_eq_spec li.pTexts)),
        (congrArg (fun p => p.2.2) (metaFromInfo_eq_spec li.pTexts))⟩
  · decide

/-- C7 witness: the general rule applied to the concrete item fragment. -/
theorem C7_metadata_extraction_witness :
    mMeta.year = (specMetaOfInfo liMeta.pTexts).1 ∧
    mMeta.country = (specMetaOfInfo liMeta.pTexts).2.1 ∧
    mMeta.genres = (specMetaOfInfo liMeta.pTexts).2.2 :=
  C7_metadata_extraction.1 liMeta mMeta rfl

/-! ## Claim C8 -/

/-- C8: `_extract_vote_count` equals parsing the concatenation, in encounter
order, of the digit characters of its input (0 when there are none), and a
ratings span reading `"1234567人评价"` makes the parsed item's votes
1234567. -/
theorem C8_votes_digit_concat :
    (∀ s : String, extractVoteCount s =
      (pyInt (String.mk (s.data.filter Char.isDigit))).getD 0) ∧
    (parseMovie liVotes).map Movie.votes = some 1234567 := by
  constructor
  · intro s
    simp only [extractVoteCount]
    cases hd : s.data.filter Char.isDigit with
    | nil => simp [pyInt, pyStripChars, pyIntChars]
    | cons c t =>
      have hdig : ∀ x ∈ c :: t, x.isDigit = true := by
        intro x hx
        rw [← hd] at hx
        exact (List.mem_filter.mp hx).2
      rw [pyInt_digit_string (c :: t) (by simp) hdig]
      simp
  · decide

/-! ## Claim C9 -/

/-- The movie `_parse_movie` extracts from `liOther`. -/
def mOther : Movie :=
  { rank := 3,
    title := "寂静人生",
    original_title := some "美国异闻录",
    year := none,
    country := none,
    genres := [],
    rating := 0,
    votes := 0,
    quote := none,
    detail_url := "",
    poster_url := none,
    is_playable := false,
    directors := [],
    actors := [] }

/-- C9: on every item fragment without a second title span, the extracted
`original_title` is the specification's "other titles" fallback — leading
slash stripped, only the first slash-separated alternate kept (trimmed),
absent when the span is absent or empty — and the fragment whose other-titles
span reads `"/ 美国异闻录 / 美国志异"` yields `"美国异闻录"`. -/
theorem C9_other_titles_fallback :
    (∀ li m, parseMovie li = some m → li.titleSpans.length ≤ 1 →
      m.original_title = specOtherFallback li.otherSpan) ∧
    (parseMovie liOther).map Movie.original_title = some (some "美国异闻录") := by
  constructor
  · intro li m hm hlen
    cases hr : parseRank li.em with
    | none => simp [parseMovie, hr] at hm
    | some r =>
      simp only [parseMovie, hr] at hm
      injection hm with h
      subst h
      show parseOriginalTitle li.titleSpans li.otherSpan = specOtherFallback li.otherSpan
      have hnone : parseOriginalFromTitles li.titleSpans = none := by
        cases hts : li.titleSpans with
        | nil => rfl
        | cons a t =>
          cases t with
          | nil => rfl
          | cons b t2 => rw [hts] at hlen; simp at hlen
      rw [parseOriginalTitle.eq_def, hnone]
      cases li.otherSpan <;> rfl
  · decide

/-- C9 witness: the fallback rule applied to the concrete single-title item
fragment. -/
theorem C9_other_titles_fallback_witness :
    mOther.original_title = specOtherFallback liOther.otherSpan :=
  C9_other_titles_fallback.1 liOther mOther rfl (by decide)
